import Mathlib

/-!
Verification of `code_puppy/command_line/add_model_menu.py`: a terminal menu
(`AddModelMenu`) that registers a custom OpenAI-compatible model endpoint and
persists it into a JSON mapping file.

The embedding is a shallow, purely functional translation of the module:
  * terminal key events, blocking line prompts and user interrupts become
    explicit input values consumed in order;
  * `os.environ` and the general configuration store (`set_config_value`)
    become association lists threaded through the flow;
  * the extra-models JSON file becomes a `FileState` (absent / unreadable /
    stored JSON value) plus a log of the successful writes performed by
    `json.dump(..., indent=4)`;
  * the alternate-screen escape sequences and `set_awaiting_user_input`
    calls of `AddModelMenu.run` become an event trace.
-/

namespace CodePuppy

/-- JSON values as handled by Python's `json` module (the subset this
module reads and writes).  Objects keep their fields in insertion order,
matching Python dict semantics. -/
inductive Json where
  | str (s : String)
  | num (n : Int)
  | arr (elems : List Json)
  | obj (fields : List (String × Json))

/-- Python dict item assignment `d[k] = v`: an existing key is overwritten
in place (its position is kept), a new key is appended at the end. -/
def setKey : List (String × Json) → String → Json → List (String × Json)
  | [], k, v => [(k, v)]
  | p :: t, k, v => if p.1 = k then (k, v) :: t else p :: setKey t k v

/-- Python dict lookup `d.get(k)` on a JSON object. -/
def lookupKey : List (String × Json) → String → Option Json
  | [], _ => none
  | p :: t, k => if p.1 = k then some p.2 else lookupKey t k

/-- `os.environ.get(k)` / lookup in a string-valued association table. -/
def envGet : List (String × String) → String → Option String
  | [], _ => none
  | p :: t, k => if p.1 = k then some p.2 else envGet t k

/-- `os.environ[k] = v` / insertion into a string-valued association
table: overwrite in place, else append (Python dict semantics). -/
def envSet : List (String × String) → String → String → List (String × String)
  | [], k, v => [(k, v)]
  | p :: t, k, v => if p.1 = k then (k, v) :: t else p :: envSet t k v

/-- Truthiness of `os.environ.get(k)` as used in
`if not os.environ.get(env_var_name)` (line 164): an unset variable and a
variable set to the empty string are both falsy. -/
def envTruthy (env : List (String × String)) (k : String) : Bool :=
  match envGet env k with
  | some s => s ≠ ""
  | none => false

/-- ASCII whitespace stripped by Python's `int(str)`. -/
def isPySpace (c : Char) : Bool :=
  c = ' ' ∨ c = '\t' ∨ c = '\n' ∨ c = '\r' ∨ c = '\x0b' ∨ c = '\x0c'

/-- Digit-run parser for Python's `int(str)`: a nonempty run of decimal
digits in which a single underscore may appear between two digits.
`afterDigit` records whether the previous character was a digit. -/
def pyDigits : List Char → Bool → Nat → Option Nat
  | [], afterDigit, acc => if afterDigit then some acc else none
  | c :: rest, afterDigit, acc =>
    if c.isDigit then pyDigits rest true (acc * 10 + (c.toNat - 48))
    else if c = '_' ∧ afterDigit then
      match rest with
      | [] => none
      | c2 :: rest2 =>
        if c2.isDigit then pyDigits rest2 true (acc * 10 + (c2.toNat - 48))
        else none
    else none

/-- Python's `int(str)` on the decimal strings this module can meet:
surrounding ASCII whitespace is stripped, then an optional single sign is
followed by a nonempty digit run; `none` models the `ValueError` raised
on any other input. -/
def pythonInt (s : String) : Option Int :=
  let cs := ((s.toList.dropWhile isPySpace).reverse.dropWhile isPySpace).reverse
  match cs with
  | '+' :: rest => (pyDigits rest false 0).map Int.ofNat
  | '-' :: rest => (pyDigits rest false 0).map (fun n => -(Int.ofNat n))
  | rest => (pyDigits rest false 0).map Int.ofNat

/-- Lines 156-161: the context length defaults to 128000; nonempty input
is fed to `int(...)` and a `ValueError` is silently swallowed, keeping
the default. -/
def contextLengthOf (ctx_input : String) : Int :=
  if ctx_input = "" then 128000
  else
    match pythonInt ctx_input with
    | some n => n
    | none => 128000

/-- Outcome of one `safe_input` call.

Modelled from the spec: `safe_input` (from `code_puppy.command_line.utils`,
not under `src/`) performs a blocking line-read; per spec §4.2 a user
cancel signal or end-of-input at any prompt raises, which the flow catches
as `(KeyboardInterrupt, EOFError)`.  `text s` is a completed line,
`interrupt` is such an exception. -/
inductive PromptResp where
  | text (s : String)
  | interrupt
deriving DecidableEq

/-- State of the file at `EXTRA_MODELS_FILE`: missing, present but failing
`open`/`json.load` (raising inside the `try` of `_save_config`), or
present with a successfully parsed JSON value. -/
inductive FileState where
  | absent
  | unreadable
  | stored (v : Json)

/-- The filesystem as `_save_config` sees it. `writeFails` injects a
failure of the final `open(..., "w")`/`json.dump` (e.g. a permission
error), which the module does not catch; `writeLog` records each
successful write as the dumped value paired with the `indent` argument
passed to `json.dump`. -/
structure FS where
  file : FileState
  writeFails : Bool
  writeLog : List (Json × Nat)

/-- The mutable state the flow touches: the process environment
(`os.environ`), the general configuration store written through
`set_config_value` (modelled from the spec: an external key-value store,
not under `src/`), and the extra-models file. -/
structure Ctx where
  env : List (String × String)
  store : List (String × String)
  fs : FS

/-- Lines 171-180: the dict literal `config` persisted for one custom
model. -/
def configEntry (base_url model_id env_var_name : String)
    (context_length : Int) : Json :=
  Json.obj
    [ ("type", Json.str "custom_openai"),
      ("name", Json.str model_id),
      ("custom_endpoint", Json.obj
        [ ("url", Json.str base_url),
          ("api_key", Json.str ("$" ++ env_var_name)) ]),
      ("context_length", Json.num context_length),
      ("supported_settings", Json.arr
        [Json.str "temperature", Json.str "top_p"]) ]

/-- `AddModelMenu._save_config` (lines 189-206): load the existing file,
treating a missing file or any read/parse exception as the empty dict
(`except Exception: pass`); a parsed non-dict value makes the item
assignment `extra_models[key] = config` raise, which propagates
(`Except.error`); otherwise set the key and rewrite the file with
`json.dump(extra_models, f, indent=4)`, whose own failure also
propagates. -/
def save_config (key : String) (config : Json) (fs : FS) :
    Except Unit FS :=
  let extra_models : Except Unit (List (String × Json)) :=
    match fs.file with
    | .absent => .ok []
    | .unreadable => .ok []
    | .stored (Json.obj m) => .ok m
    | .stored _ => .error ()
  match extra_models with
  | .error u => .error u
  | .ok m =>
    let m2 := setKey m key config
    if fs.writeFails then .error ()
    else
      .ok { file := .stored (Json.obj m2),
            writeFails := fs.writeFails,
            writeLog := fs.writeLog ++ [(Json.obj m2, 4)] }

/-- Result of `_prompt_custom_flow`: the returned boolean (or a
propagated exception as `Except.error`), the state after the run, and
the prompt responses not consumed. -/
structure FlowOut where
  res : Except Unit Bool
  ctx : Ctx
  remaining : List PromptResp

/-- Lines 170-183: build the `config` dict and call `_save_config`; on a
successful save the flow returns `True`, while an exception raised by the
save (not a `KeyboardInterrupt`/`EOFError`) propagates. -/
def do_save (base_url model_id env_var_name : String)
    (context_length : Int) (rest : List PromptResp) (c : Ctx) : FlowOut :=
  match save_config ("custom-" ++ model_id)
      (configEntry base_url model_id env_var_name context_length) c.fs with
  | .ok fs2 => ⟨.ok true, { c with fs := fs2 }, rest⟩
  | .error u => ⟨.error u, c, rest⟩

/-- Lines 163-183: if `os.environ.get(env_var_name)` is falsy, prompt for
the key value; a nonempty answer is written through `set_config_value`
and into `os.environ` before the save; then save.  An interrupt at the
extra prompt is caught by the flow's handler and yields `False`. -/
def finish_flow (base_url model_id env_var_name : String)
    (context_length : Int) (rest : List PromptResp) (c : Ctx) : FlowOut :=
  if envTruthy c.env env_var_name then
    do_save base_url model_id env_var_name context_length rest c
  else
    match rest with
    | [] => ⟨.ok false, c, []⟩
    | .interrupt :: rest2 => ⟨.ok false, c, rest2⟩
    | .text key_val :: rest2 =>
      if key_val = "" then
        do_save base_url model_id env_var_name context_length rest2 c
      else
        do_save base_url model_id env_var_name context_length rest2
          { c with
            store := envSet c.store env_var_name key_val,
            env := envSet c.env env_var_name key_val }

/-- `AddModelMenu._prompt_custom_flow` (lines 137-187): three required
prompts (empty input returns `False`), the optional context-length
prompt, the conditional key-value prompt, then the save.  A
`KeyboardInterrupt`/`EOFError` at any prompt (including end-of-input,
modelled as an exhausted response list) is caught and yields `False`
with no state change. -/
def prompt_custom_flow (inputs : List PromptResp) (c : Ctx) : FlowOut :=
  match inputs with
  | [] => ⟨.ok false, c, []⟩
  | .interrupt :: rest => ⟨.ok false, c, rest⟩
  | .text base_url :: rest1 =>
    if base_url = "" then ⟨.ok false, c, rest1⟩
    else
      match rest1 with
      | [] => ⟨.ok false, c, []⟩
      | .interrupt :: rest => ⟨.ok false, c, rest⟩
      | .text model_id :: rest2 =>
        if model_id = "" then ⟨.ok false, c, rest2⟩
        else
          match rest2 with
          | [] => ⟨.ok false, c, []⟩
          | .interrupt :: rest => ⟨.ok false, c, rest⟩
          | .text env_var_name :: rest3 =>
            if env_var_name = "" then ⟨.ok false, c, rest3⟩
            else
              match rest3 with
              | [] => ⟨.ok false, c, []⟩
              | .interrupt :: rest => ⟨.ok false, c, rest⟩
              | .text ctx_input :: rest4 =>
                finish_flow base_url model_id env_var_name
                  (contextLengthOf ctx_input) rest4 c

/-- What the display phase of `AddModelMenu.run` ends with: the `enter`
binding sets `self.result = "add_custom"` and exits, the `c-c` binding
exits leaving `self.result` as `None`, or `app.run` raises. -/
inductive DisplayEvent where
  | enter
  | ctrlC
  | raise
deriving DecidableEq

/-- `self.result` after the display phase (lines 106-113; `None` or
`"add_custom"`). -/
def displayResult : DisplayEvent → Except Unit (Option String)
  | .enter => .ok (some "add_custom")
  | .ctrlC => .ok none
  | .raise => .error ()

/-- Observable terminal-side effects of `AddModelMenu.run`:
`set_awaiting_user_input(b)` calls and raw `sys.stdout.write` escape
sequences. -/
inductive TermEvent where
  | setAwaiting (b : Bool)
  | write (s : String)
deriving DecidableEq

/-- Lines 118-122: before the `try`, signal awaiting input, switch to the
alternate screen buffer and clear it. -/
def runTracePre : List TermEvent :=
  [.setAwaiting true, .write "\x1b[?1049h", .write "\x1b[2J\x1b[H"]

/-- Lines 127-130, the `finally` block: leave the alternate screen buffer
and clear the awaiting-input signal.  It runs on every exit of the `try`,
including an exception from `app.run`. -/
def runTracePost : List TermEvent :=
  [.write "\x1b[?1049l", .setAwaiting false]

/-- Result of `AddModelMenu.run`: returned boolean or propagated
exception, final state, unconsumed prompt responses, and the trace of
terminal-side effects in order. -/
structure RunOut where
  res : Except Unit Bool
  ctx : Ctx
  remaining : List PromptResp
  trace : List TermEvent

/-- `AddModelMenu.run` (lines 90-135): display phase inside
`try`/`finally` (an exception from `app.run` propagates after the
`finally` block ran), then `_prompt_custom_flow` exactly when
`self.result == "add_custom"`, else `False`. -/
def run (d : DisplayEvent) (inputs : List PromptResp) (c : Ctx) : RunOut :=
  match displayResult d with
  | .error u => ⟨.error u, c, inputs, runTracePre ++ runTracePost⟩
  | .ok r =>
    if r = some "add_custom" then
      let f := prompt_custom_flow inputs c
      ⟨f.res, f.ctx, f.remaining, runTracePre ++ runTracePost⟩
    else ⟨.ok false, c, inputs, runTracePre ++ runTracePost⟩

/-- `interactive_model_picker` (lines 208-210): construct the menu and
run it. -/
def interactive_model_picker (d : DisplayEvent) (inputs : List PromptResp)
    (c : Ctx) : RunOut :=
  run d inputs c

/-- The dict `_save_config` starts from after its load step, when the
load does not raise out of the function: a missing or unreadable file
gives the empty dict. -/
def loadedDict : FileState → List (String × Json)
  | .stored (Json.obj m) => m
  | _ => []

/-- `true` unless the file holds a parsed non-dict JSON value (the one
load outcome that makes `_save_config` raise). -/
def loadOk : FileState → Bool
  | .stored (Json.obj _) => true
  | .stored _ => false
  | _ => true

/-- Field accessor: the `api_key` entry of the `custom_endpoint` object
of a persisted model entry. -/
def entryApiKey (e : Json) : Option Json :=
  match e with
  | .obj fields =>
    match lookupKey fields "custom_endpoint" with
    | some (.obj ep) => lookupKey ep "api_key"
    | _ => none
  | _ => none

/-- Field accessor: the `context_length` entry of a persisted model
entry. -/
def entryCtxLen (e : Json) : Option Json :=
  match e with
  | .obj fields => lookupKey fields "context_length"
  | _ => none

/-! ## Helper lemmas -/

theorem lookupKey_setKey_self (m : List (String × Json)) (k : String)
    (v : Json) : lookupKey (setKey m k v) k = some v := by
  induction m with
  | nil => simp [setKey, lookupKey]
  | cons p t ih =>
    by_cases h : p.1 = k
    · simp [setKey, lookupKey, h]
    · simp [setKey, lookupKey, h, ih]

theorem lookupKey_setKey_ne (m : List (String × Json)) (k k2 : String)
    (v : Json) (hne : k2 ≠ k) :
    lookupKey (setKey m k v) k2 = lookupKey m k2 := by
  induction m with
  | nil => simp [setKey, lookupKey, Ne.symm hne]
  | cons p t ih =>
    by_cases h : p.1 = k
    · simp [setKey, lookupKey, h, Ne.symm hne]
    · by_cases h2 : p.1 = k2 <;> simp [setKey, lookupKey, h, h2, hne, ih]

theorem save_config_ok_eq (key : String) (cfg : Json) (fs : FS)
    (hload : loadOk fs.file = true) (hw : fs.writeFails = false) :
    save_config key cfg fs =
      .ok ⟨.stored (Json.obj (setKey (loadedDict fs.file) key cfg)), false,
           fs.writeLog ++ [(Json.obj (setKey (loadedDict fs.file) key cfg), 4)]⟩ := by
  rcases fs with ⟨file, wf, log⟩
  cases hw
  cases file with
  | absent => simp [save_config, loadedDict]
  | unreadable => simp [save_config, loadedDict]
  | stored v => cases v <;> simp_all [save_config, loadOk, loadedDict]

theorem save_config_write_fail_eq (key : String) (cfg : Json) (fs : FS)
    (hload : loadOk fs.file = true) (hw : fs.writeFails = true) :
    save_config key cfg fs = .error () := by
  rcases fs with ⟨file, wf, log⟩
  cases hw
  cases file with
  | absent => simp [save_config]
  | unreadable => simp [save_config]
  | stored v => cases v <;> simp_all [save_config, loadOk]

theorem save_config_ok_inv (key : String) (cfg : Json) (fs fs2 : FS)
    (h : save_config key cfg fs = .ok fs2) :
    fs2 = ⟨.stored (Json.obj (setKey (loadedDict fs.file) key cfg)),
           fs.writeFails,
           fs.writeLog ++ [(Json.obj (setKey (loadedDict fs.file) key cfg), 4)]⟩ := by
  unfold save_config at h
  rcases fs with ⟨file, wf, log⟩
  cases file with
  | absent => cases wf <;> simp_all [loadedDict]
  | unreadable => cases wf <;> simp_all [loadedDict]
  | stored v => cases v <;> cases wf <;> simp_all [loadedDict]

theorem do_save_ok_eq (u m n : String) (L : Int) (rest : List PromptResp)
    (c : Ctx) (hload : loadOk c.fs.file = true)
    (hw : c.fs.writeFails = false) :
    do_save u m n L rest c =
      ⟨.ok true,
       { c with fs :=
          ⟨.stored (Json.obj (setKey (loadedDict c.fs.file) ("custom-" ++ m)
              (configEntry u m n L))), false,
           c.fs.writeLog ++ [(Json.obj (setKey (loadedDict c.fs.file)
              ("custom-" ++ m) (configEntry u m n L)), 4)]⟩ },
       rest⟩ := by
  unfold do_save
  rw [save_config_ok_eq _ _ _ hload hw]

theorem do_save_write_fail_eq (u m n : String) (L : Int)
    (rest : List PromptResp) (c : Ctx) (hload : loadOk c.fs.file = true)
    (hw : c.fs.writeFails = true) :
    do_save u m n L rest c = ⟨.error (), c, rest⟩ := by
  unfold do_save
  rw [save_config_write_fail_eq _ _ _ hload hw]

theorem do_save_res_true (u m n : String) (L : Int) (rest : List PromptResp)
    (c : Ctx) (h : (do_save u m n L rest c).res = .ok true) :
    ∃ mm : List (String × Json),
      (do_save u m n L rest c).ctx.fs.file = .stored (Json.obj mm) ∧
      (do_save u m n L rest c).ctx.fs.writeLog =
        c.fs.writeLog ++ [(Json.obj mm, 4)] ∧
      mm = setKey (loadedDict c.fs.file) ("custom-" ++ m)
        (configEntry u m n L) := by
  rcases hs : save_config ("custom-" ++ m) (configEntry u m n L) c.fs
    with e | fs2
  · simp [do_save, hs] at h
  · have h2 := save_config_ok_inv _ _ _ _ hs
    exact ⟨setKey (loadedDict c.fs.file) ("custom-" ++ m)
      (configEntry u m n L), by simp [do_save, hs, h2],
      by simp [do_save, hs, h2], rfl⟩

theorem finish_flow_res_true (u m n : String) (L : Int)
    (rest : List PromptResp) (c : Ctx)
    (h : (finish_flow u m n L rest c).res = .ok true) :
    ∃ mm : List (String × Json),
      (finish_flow u m n L rest c).ctx.fs.file = .stored (Json.obj mm) ∧
      (finish_flow u m n L rest c).ctx.fs.writeLog =
        c.fs.writeLog ++ [(Json.obj mm, 4)] ∧
      ∃ nm L2, mm = setKey (loadedDict c.fs.file) ("custom-" ++ m)
        (configEntry u m nm L2) := by
  by_cases he : envTruthy c.env n = true
  · rw [finish_flow.eq_def, if_pos he] at h ⊢
    obtain ⟨mm, h1, h2, h3⟩ := do_save_res_true u m n L rest c h
    exact ⟨mm, h1, h2, n, L, h3⟩
  · have he2 : envTruthy c.env n = false := by
      simpa using he
    rw [finish_flow.eq_def, if_neg (by simp [he2])] at h ⊢
    rcases rest with _ | ⟨v | _, rest2⟩
    · simp at h
    · by_cases hv : v = ""
      · simp only [hv, if_pos rfl] at h ⊢
        obtain ⟨mm, h1, h2, h3⟩ := do_save_res_true u m n L rest2 c h
        exact ⟨mm, h1, h2, n, L, h3⟩
      · simp only [if_neg hv] at h ⊢
        obtain ⟨mm, h1, h2, h3⟩ := do_save_res_true u m n L rest2
          { c with store := envSet c.store n v, env := envSet c.env n v } h
        exact ⟨mm, h1, h2, n, L, h3⟩
    · simp at h

theorem prompt_flow_res_true (inputs : List PromptResp) (c : Ctx)
    (h : (prompt_custom_flow inputs c).res = .ok true) :
    ∃ u m n L mm,
      (prompt_custom_flow inputs c).ctx.fs.file = .stored (Json.obj mm) ∧
      (prompt_custom_flow inputs c).ctx.fs.writeLog =
        c.fs.writeLog ++ [(Json.obj mm, 4)] ∧
      mm = setKey (loadedDict c.fs.file) ("custom-" ++ m)
        (configEntry u m n L) := by
  rcases inputs with _ | ⟨u | _, rest1⟩
  · simp [prompt_custom_flow] at h
  · by_cases hu : u = ""
    · simp [prompt_custom_flow, hu] at h
    · rcases rest1 with _ | ⟨m | _, rest2⟩
      · simp [prompt_custom_flow, hu] at h
      · by_cases hm : m = ""
        · simp [prompt_custom_flow, hu, hm] at h
        · rcases rest2 with _ | ⟨n | _, rest3⟩
          · simp [prompt_custom_flow, hu, hm] at h
          · by_cases hn : n = ""
            · simp [prompt_custom_flow, hu, hm, hn] at h
            · rcases rest3 with _ | ⟨s | _, rest4⟩
              · simp [prompt_custom_flow, hu, hm, hn] at h
              · rw [prompt_custom_flow] at h ⊢
                simp only [if_neg hu, if_neg hm, if_neg hn] at h ⊢
                obtain ⟨mm, h1, h2, nm, L2, h3⟩ :=
                  finish_flow_res_true u m n (contextLengthOf s) rest4 c h
                exact ⟨u, m, nm, L2, mm, h1, h2, h3⟩
              · simp [prompt_custom_flow, hu, hm, hn] at h
          · simp [prompt_custom_flow, hu, hm] at h
      · simp [prompt_custom_flow, hu] at h
  · simp [prompt_custom_flow] at h

theorem run_res_true (d : DisplayEvent) (inputs : List PromptResp) (c : Ctx)
    (h : (run d inputs c).res = .ok true) :
    ∃ u m n L mm,
      (run d inputs c).ctx.fs.file = .stored (Json.obj mm) ∧
      (run d inputs c).ctx.fs.writeLog =
        c.fs.writeLog ++ [(Json.obj mm, 4)] ∧
      mm = setKey (loadedDict c.fs.file) ("custom-" ++ m)
        (configEntry u m n L) := by
  cases d with
  | enter =>
    have hr : run .enter inputs c =
        ⟨(prompt_custom_flow inputs c).res, (prompt_custom_flow inputs c).ctx,
         (prompt_custom_flow inputs c).remaining,
         runTracePre ++ runTracePost⟩ := by
      simp [run, displayResult]
    rw [hr] at h ⊢
    exact prompt_flow_res_true inputs c h
  | ctrlC => simp [run, displayResult] at h
  | raise => simp [run, displayResult] at h

theorem run_enter_eq (inputs : List PromptResp) (c : Ctx) :
    run .enter inputs c =
      ⟨(prompt_custom_flow inputs c).res, (prompt_custom_flow inputs c).ctx,
       (prompt_custom_flow inputs c).remaining, runTracePre ++ runTracePost⟩ := by
  simp [run, displayResult]

theorem prompt_flow_truthy_eq (c : Ctx) (u m n s : String)
    (rest : List PromptResp) (hu : u ≠ "") (hm : m ≠ "") (hn : n ≠ "")
    (henv : envTruthy c.env n = true) :
    prompt_custom_flow
        (.text u :: .text m :: .text n :: .text s :: rest) c =
      do_save u m n (contextLengthOf s) rest c := by
  rw [prompt_custom_flow]
  simp only [if_neg hu, if_neg hm, if_neg hn]
  rw [finish_flow.eq_def, if_pos henv]

theorem prompt_flow_falsy_set_eq (c : Ctx) (u m n s v : String)
    (rest : List PromptResp) (hu : u ≠ "") (hm : m ≠ "") (hn : n ≠ "")
    (henv : envTruthy c.env n = false) (hv : v ≠ "") :
    prompt_custom_flow
        (.text u :: .text m :: .text n :: .text s :: .text v :: rest) c =
      do_save u m n (contextLengthOf s) rest
        { c with store := envSet c.store n v, env := envSet c.env n v } := by
  rw [prompt_custom_flow]
  simp only [if_neg hu, if_neg hm, if_neg hn]
  rw [finish_flow.eq_def, if_neg (by simp [henv])]
  simp only [if_neg hv]

theorem prompt_flow_falsy_blank_eq (c : Ctx) (u m n s : String)
    (rest : List PromptResp) (hu : u ≠ "") (hm : m ≠ "") (hn : n ≠ "")
    (henv : envTruthy c.env n = false) :
    prompt_custom_flow
        (.text u :: .text m :: .text n :: .text s :: .text "" :: rest) c =
      do_save u m n (contextLengthOf s) rest c := by
  rw [prompt_custom_flow]
  simp only [if_neg hu, if_neg hm, if_neg hn]
  rw [finish_flow.eq_def, if_neg (by simp [henv])]
  simp

theorem envGet_envSet_self (env : List (String × String)) (k v : String) :
    envGet (envSet env k v) k = some v := by
  induction env with
  | nil => simp [envSet, envGet]
  | cons p t ih =>
    by_cases h : p.1 = k
    · simp [envSet, envGet, h]
    · simp [envSet, envGet, h, ih]

theorem do_save_frame (u m n : String) (L : Int) (rest : List PromptResp)
    (c : Ctx) :
    (do_save u m n L rest c).remaining = rest ∧
    (do_save u m n L rest c).ctx.env = c.env ∧
    (do_save u m n L rest c).ctx.store = c.store := by
  unfold do_save
  rcases save_config ("custom-" ++ m) (configEntry u m n L) c.fs
    with e | fs2 <;> simp

/-! ## Claim theorems -/

/-- C1: the whole flow (`run` / `interactive_model_picker`) returns a
boolean that is `true` only if a new entry was successfully written to
the configuration file, and `false` for a cancellation; in particular,
cancelling at the display phase (the `c-c` key) leaves the state
untouched — the persistence step is never invoked — and returns
`false`. -/
theorem run_boolean_contract :
    (∀ (inputs : List PromptResp) (c : Ctx),
      run .ctrlC inputs c =
        ⟨.ok false, c, inputs, runTracePre ++ runTracePost⟩ ∧
      interactive_model_picker .ctrlC inputs c =
        ⟨.ok false, c, inputs, runTracePre ++ runTracePost⟩) ∧
    (∀ (d : DisplayEvent) (inputs : List PromptResp) (c : Ctx),
      (run d inputs c).res = .ok true →
      ∃ mm, (run d inputs c).ctx.fs.writeLog =
          c.fs.writeLog ++ [(Json.obj mm, 4)] ∧
        (run d inputs c).ctx.fs.file = .stored (Json.obj mm)) := by
  constructor
  · intro inputs c
    exact ⟨rfl, rfl⟩
  · intro d inputs c h
    obtain ⟨u, m, n, L, mm, h1, h2, _⟩ := run_res_true d inputs c h
    exact ⟨mm, h2, h1⟩

/-- C1 witness: cancelling on an empty state returns `false` and changes
nothing; a concrete successful run has appended exactly one file
write. -/
theorem run_boolean_contract_witness :
    (run .ctrlC [] ⟨[], [], ⟨.absent, false, []⟩⟩ =
      ⟨.ok false, ⟨[], [], ⟨.absent, false, []⟩⟩, [],
       runTracePre ++ runTracePost⟩) ∧
    ∃ mm,
      (run .enter [.text "https://e", .text "mid", .text "K", .text ""]
          ⟨[("K", "x")], [], ⟨.absent, false, []⟩⟩).ctx.fs.writeLog =
        FS.writeLog ⟨.absent, false, []⟩ ++ [(Json.obj mm, 4)] ∧
      (run .enter [.text "https://e", .text "mid", .text "K", .text ""]
          ⟨[("K", "x")], [], ⟨.absent, false, []⟩⟩).ctx.fs.file =
        .stored (Json.obj mm) :=
  ⟨(run_boolean_contract.1 [] ⟨[], [], ⟨.absent, false, []⟩⟩).1,
   run_boolean_contract.2 .enter
     [.text "https://e", .text "mid", .text "K", .text ""]
     ⟨[("K", "x")], [], ⟨.absent, false, []⟩⟩ rfl⟩

/-- C3: empty input at any of the three required prompts (base URL,
model id, env-var name) aborts the whole flow: the result is `false` and
the state — in particular the configuration file and its write log — is
unchanged. -/
theorem empty_required_prompt_aborts (c : Ctx) (u m : String)
    (rest : List PromptResp) (hu : u ≠ "") (hm : m ≠ "") :
    run .enter (.text "" :: rest) c =
      ⟨.ok false, c, rest, runTracePre ++ runTracePost⟩ ∧
    run .enter (.text u :: .text "" :: rest) c =
      ⟨.ok false, c, rest, runTracePre ++ runTracePost⟩ ∧
    run .enter (.text u :: .text m :: .text "" :: rest) c =
      ⟨.ok false, c, rest, runTracePre ++ runTracePost⟩ := by
  refine ⟨?_, ?_, ?_⟩ <;> rw [run_enter_eq] <;>
    simp [prompt_custom_flow, hu, hm]

/-- C3 witness: the three abort cases at a concrete state, inputs and
nonempty earlier answers. -/
theorem empty_required_prompt_aborts_witness :
    run .enter [.text ""] ⟨[], [], ⟨.absent, false, []⟩⟩ =
      ⟨.ok false, ⟨[], [], ⟨.absent, false, []⟩⟩, [],
       runTracePre ++ runTracePost⟩ ∧
    run .enter [.text "https://e", .text ""] ⟨[], [], ⟨.absent, false, []⟩⟩ =
      ⟨.ok false, ⟨[], [], ⟨.absent, false, []⟩⟩, [],
       runTracePre ++ runTracePost⟩ ∧
    run .enter [.text "https://e", .text "mid", .text ""]
        ⟨[], [], ⟨.absent, false, []⟩⟩ =
      ⟨.ok false, ⟨[], [], ⟨.absent, false, []⟩⟩, [],
       runTracePre ++ runTracePost⟩ :=
  empty_required_prompt_aborts ⟨[], [], ⟨.absent, false, []⟩⟩
    "https://e" "mid" [] (by decide) (by decide)

/-- C8: on every exit path of the display phase — normal confirm, cancel,
or an exception raised inside the `try` — the trace of terminal effects
is exactly the acquisition prefix followed by the `finally` cleanup: the
original screen buffer is restored (`ESC [?1049l`) and the
awaiting-input signal cleared exactly once each. -/
theorem screen_restored_on_every_path (d : DisplayEvent)
    (inputs : List PromptResp) (c : Ctx) :
    (run d inputs c).trace = runTracePre ++ runTracePost ∧
    (run d inputs c).trace.count (TermEvent.write "\x1b[?1049h") = 1 ∧
    (run d inputs c).trace.count (TermEvent.write "\x1b[?1049l") = 1 ∧
    (run d inputs c).trace.count (TermEvent.setAwaiting true) = 1 ∧
    (run d inputs c).trace.count (TermEvent.setAwaiting false) = 1 := by
  have ht : (run d inputs c).trace = runTracePre ++ runTracePost := by
    cases d with
    | enter => rw [run_enter_eq]
    | ctrlC => rfl
    | raise => rfl
  refine ⟨ht, ?_, ?_, ?_, ?_⟩ <;> rw [ht] <;> rfl


/-- C2: for every existing configuration mapping and every key/entry
pair, `_save_config` sets only `mapping[key] = entry` and preserves every
other existing key unchanged. -/
theorem save_config_preserves_existing_keys (m : List (String × Json))
    (key : String) (entry : Json) (fs : FS)
    (hfile : fs.file = .stored (Json.obj m)) (hw : fs.writeFails = false) :
    save_config key entry fs =
      .ok ⟨.stored (Json.obj (setKey m key entry)), false,
           fs.writeLog ++ [(Json.obj (setKey m key entry), 4)]⟩ ∧
    lookupKey (setKey m key entry) key = some entry ∧
    ∀ k, k ≠ key → lookupKey (setKey m key entry) k = lookupKey m k := by
  refine ⟨?_, lookupKey_setKey_self m key entry,
    fun k hk => lookupKey_setKey_ne m key k entry hk⟩
  have h := save_config_ok_eq key entry fs (by rw [hfile]; rfl) hw
  rw [hfile] at h
  simpa [loadedDict] using h

/-- C2 witness: an existing file `{"a": 1}`, saving key `"b"`, yields a
file holding both `"a"` (unchanged) and `"b"`. -/
theorem save_config_preserves_existing_keys_witness :
    save_config "b" (Json.str "e")
        ⟨.stored (Json.obj [("a", Json.num 1)]), false, []⟩ =
      .ok ⟨.stored (Json.obj [("a", Json.num 1), ("b", Json.str "e")]), false,
           [(Json.obj [("a", Json.num 1), ("b", Json.str "e")], 4)]⟩ ∧
    lookupKey [("a", Json.num 1), ("b", Json.str "e")] "a" = some (Json.num 1) ∧
    lookupKey [("a", Json.num 1), ("b", Json.str "e")] "b" = some (Json.str "e") := by
  have h := save_config_preserves_existing_keys [("a", Json.num 1)] "b"
    (Json.str "e") ⟨.stored (Json.obj [("a", Json.num 1)]), false, []⟩ rfl rfl
  refine ⟨?_, ?_, ?_⟩
  · have h1 := h.1
    rw [show setKey [("a", Json.num 1)] "b" (Json.str "e") =
      [("a", Json.num 1), ("b", Json.str "e")] from rfl] at h1
    exact h1
  · have h2 := h.2.2 "a" (by decide)
    rw [show setKey [("a", Json.num 1)] "b" (Json.str "e") =
      [("a", Json.num 1), ("b", Json.str "e")] from rfl] at h2
    rw [h2]; rfl
  · have h3 := h.2.1
    rw [show setKey [("a", Json.num 1)] "b" (Json.str "e") =
      [("a", Json.num 1), ("b", Json.str "e")] from rfl] at h3
    exact h3

/-- C4: an unreadable or corrupt existing configuration file is silently
treated as an empty mapping: the save starts from the empty dict, no
error is propagated, and the next successful save overwrites the prior
invalid content with a mapping holding just the new key. -/
theorem corrupt_config_loaded_as_empty (key : String) (entry : Json)
    (fs : FS) (hfile : fs.file = .unreadable) (hw : fs.writeFails = false) :
    loadedDict fs.file = [] ∧
    save_config key entry fs =
      .ok ⟨.stored (Json.obj [(key, entry)]), false,
           fs.writeLog ++ [(Json.obj [(key, entry)], 4)]⟩ := by
  constructor
  · rw [hfile]; rfl
  · have h := save_config_ok_eq key entry fs (by rw [hfile]; rfl) hw
    rw [hfile] at h
    simpa [loadedDict, setKey] using h

/-- C4 witness: a concrete unreadable file is replaced by a mapping
holding only the newly saved key. -/
theorem corrupt_config_loaded_as_empty_witness :
    loadedDict (FS.file ⟨.unreadable, false, []⟩) = [] ∧
    save_config "custom-m" (Json.str "e") ⟨.unreadable, false, []⟩ =
      .ok ⟨.stored (Json.obj [("custom-m", Json.str "e")]), false,
           [(Json.obj [("custom-m", Json.str "e")], 4)]⟩ := by
  have h := corrupt_config_loaded_as_empty "custom-m" (Json.str "e")
    ⟨.unreadable, false, []⟩ rfl rfl
  exact h

/-- C5 counterexample: the claim says a variable that is *already set*
is never prompted for; but with `FOO_KEY` present in the environment
with the empty-string value, `os.environ.get` is falsy, so the flow does
prompt — with only four responses supplied it hits end-of-input at the
fifth prompt and returns `false`, and with a fifth nonempty response
supplied it consumes it and overwrites `FOO_KEY`. -/
theorem env_set_empty_string_still_prompts :
    envGet [("FOO_KEY", "")] "FOO_KEY" = some "" ∧
    (prompt_custom_flow
        [.text "https://e", .text "mid", .text "FOO_KEY", .text ""]
        ⟨[("FOO_KEY", "")], [], ⟨.absent, false, []⟩⟩).res = .ok false ∧
    (prompt_custom_flow
        [.text "https://e", .text "mid", .text "FOO_KEY", .text "",
         .text "zzz"]
        ⟨[("FOO_KEY", "")], [], ⟨.absent, false, []⟩⟩).remaining = [] ∧
    (prompt_custom_flow
        [.text "https://e", .text "mid", .text "FOO_KEY", .text "",
         .text "zzz"]
        ⟨[("FOO_KEY", "")], [], ⟨.absent, false, []⟩⟩).ctx.env =
      [("FOO_KEY", "zzz")] :=
  ⟨rfl, rfl, rfl, rfl⟩

/-- C5 (amended): if the environment variable named at prompt 3 is set
to a *nonempty* value, the flow does not consume a fifth prompt response
and the saved entry still references it by name as `$<name>`; if it is
unset — or set to the empty string — the flow prompts: a nonempty answer
is recorded both in the general configuration store and in the process
environment, while a blank answer leaves both untouched. -/
theorem env_var_prompt_behavior_amended :
    (∀ (c : Ctx) (u m n s : String) (rest : List PromptResp),
      u ≠ "" → m ≠ "" → n ≠ "" → envTruthy c.env n = true →
      loadOk c.fs.file = true → c.fs.writeFails = false →
      ∃ mm,
        prompt_custom_flow
            (.text u :: .text m :: .text n :: .text s :: rest) c =
          ⟨.ok true,
           { c with fs := ⟨.stored (Json.obj mm), false,
              c.fs.writeLog ++ [(Json.obj mm, 4)]⟩ }, rest⟩ ∧
        lookupKey mm ("custom-" ++ m) =
          some (configEntry u m n (contextLengthOf s)) ∧
        entryApiKey (configEntry u m n (contextLengthOf s)) =
          some (Json.str ("$" ++ n))) ∧
    (∀ (c : Ctx) (u m n s v : String) (rest : List PromptResp),
      u ≠ "" → m ≠ "" → n ≠ "" → envTruthy c.env n = false → v ≠ "" →
      (prompt_custom_flow
          (.text u :: .text m :: .text n :: .text s :: .text v :: rest)
          c).remaining = rest ∧
      (prompt_custom_flow
          (.text u :: .text m :: .text n :: .text s :: .text v :: rest)
          c).ctx.env = envSet c.env n v ∧
      (prompt_custom_flow
          (.text u :: .text m :: .text n :: .text s :: .text v :: rest)
          c).ctx.store = envSet c.store n v ∧
      envGet (envSet c.env n v) n = some v) ∧
    (∀ (c : Ctx) (u m n s : String) (rest : List PromptResp),
      u ≠ "" → m ≠ "" → n ≠ "" → envTruthy c.env n = false →
      (prompt_custom_flow
          (.text u :: .text m :: .text n :: .text s :: .text "" :: rest)
          c).remaining = rest ∧
      (prompt_custom_flow
          (.text u :: .text m :: .text n :: .text s :: .text "" :: rest)
          c).ctx.env = c.env ∧
      (prompt_custom_flow
          (.text u :: .text m :: .text n :: .text s :: .text "" :: rest)
          c).ctx.store = c.store) := by
  refine ⟨?_, ?_, ?_⟩
  · intro c u m n s rest hu hm hn henv hload hw
    rw [prompt_flow_truthy_eq c u m n s rest hu hm hn henv,
      do_save_ok_eq u m n (contextLengthOf s) rest c hload hw]
    exact ⟨setKey (loadedDict c.fs.file) ("custom-" ++ m)
        (configEntry u m n (contextLengthOf s)),
      rfl, lookupKey_setKey_self _ _ _, rfl⟩
  · intro c u m n s v rest hu hm hn henv hv
    rw [prompt_flow_falsy_set_eq c u m n s v rest hu hm hn henv hv]
    have hf := do_save_frame u m n (contextLengthOf s) rest
      { c with store := envSet c.store n v, env := envSet c.env n v }
    exact ⟨hf.1, hf.2.1, hf.2.2, envGet_envSet_self c.env n v⟩
  · intro c u m n s rest hu hm hn henv
    rw [prompt_flow_falsy_blank_eq c u m n s rest hu hm hn henv]
    have hf := do_save_frame u m n (contextLengthOf s) rest c
    exact ⟨hf.1, hf.2.1, hf.2.2⟩

/-- C5 witness: the three amended branches at concrete states and
inputs. -/
theorem env_var_prompt_behavior_amended_witness :
    (∃ mm,
      prompt_custom_flow
          [.text "https://e", .text "mid", .text "FOO_KEY", .text ""]
          ⟨[("FOO_KEY", "k1")], [], ⟨.absent, false, []⟩⟩ =
        ⟨.ok true,
         { Ctx.mk [("FOO_KEY", "k1")] [] ⟨.absent, false, []⟩ with
           fs := ⟨.stored (Json.obj mm), false,
            FS.writeLog ⟨.absent, false, []⟩ ++ [(Json.obj mm, 4)]⟩ }, []⟩ ∧
      lookupKey mm "custom-mid" =
        some (configEntry "https://e" "mid" "FOO_KEY"
          (contextLengthOf "")) ∧
      entryApiKey (configEntry "https://e" "mid" "FOO_KEY"
          (contextLengthOf "")) = some (Json.str ("$" ++ "FOO_KEY"))) ∧
    ((prompt_custom_flow
        [.text "https://e", .text "mid", .text "N", .text "",
         .text "sec"] ⟨[], [], ⟨.absent, false, []⟩⟩).ctx.env =
      envSet [] "N" "sec") ∧
    ((prompt_custom_flow
        [.text "https://e", .text "mid", .text "N", .text "",
         .text ""] ⟨[], [], ⟨.absent, false, []⟩⟩).ctx.env = []) :=
  ⟨env_var_prompt_behavior_amended.1
      ⟨[("FOO_KEY", "k1")], [], ⟨.absent, false, []⟩⟩
      "https://e" "mid" "FOO_KEY" "" [] (by decide) (by decide) (by decide)
      rfl rfl rfl,
   (env_var_prompt_behavior_amended.2.1 ⟨[], [], ⟨.absent, false, []⟩⟩
      "https://e" "mid" "N" "" "sec" [] (by decide) (by decide) (by decide)
      rfl (by decide)).2.1,
   (env_var_prompt_behavior_amended.2.2 ⟨[], [], ⟨.absent, false, []⟩⟩
      "https://e" "mid" "N" "" [] (by decide) (by decide) (by decide)
      rfl).2.1⟩

/-- C6: the context-length prompt is optional — blank input keeps the
default 128000; non-integer input such as `"abc"` is silently ignored so
the saved entry has `context_length == 128000`; a decimal integer such
as `"50000"` is used as given; and for any input that `int(...)`
rejects, the default is retained.  The flow persists exactly this
value in the saved entry. -/
theorem context_length_prompt_defaults :
    contextLengthOf "" = 128000 ∧
    pythonInt "abc" = none ∧ contextLengthOf "abc" = 128000 ∧
    pythonInt "50000" = some 50000 ∧ contextLengthOf "50000" = 50000 ∧
    (∀ s : String, pythonInt s = none → contextLengthOf s = 128000) ∧
    (∀ (c : Ctx) (u m n s : String) (rest : List PromptResp),
      u ≠ "" → m ≠ "" → n ≠ "" → envTruthy c.env n = true →
      loadOk c.fs.file = true → c.fs.writeFails = false →
      ∃ mm, (prompt_custom_flow
          (.text u :: .text m :: .text n :: .text s :: rest) c).ctx.fs.file =
          .stored (Json.obj mm) ∧
        lookupKey mm ("custom-" ++ m) =
          some (configEntry u m n (contextLengthOf s)) ∧
        entryCtxLen (configEntry u m n (contextLengthOf s)) =
          some (Json.num (contextLengthOf s))) := by
  refine ⟨rfl, rfl, rfl, rfl, rfl, ?_, ?_⟩
  · intro s hp
    unfold contextLengthOf
    by_cases hs : s = ""
    · simp [hs]
    · simp [hs, hp]
  · intro c u m n s rest hu hm hn henv hload hw
    rw [prompt_flow_truthy_eq c u m n s rest hu hm hn henv,
      do_save_ok_eq u m n (contextLengthOf s) rest c hload hw]
    exact ⟨setKey (loadedDict c.fs.file) ("custom-" ++ m)
        (configEntry u m n (contextLengthOf s)),
      rfl, lookupKey_setKey_self _ _ _, rfl⟩

/-- C6 witness: a non-integer answer keeps 128000 (general branch at
`"7x"`), and a concrete run with answer `"50000"` saves an entry whose
`context_length` is 50000. -/
theorem context_length_prompt_defaults_witness :
    contextLengthOf "7x" = 128000 ∧
    ∃ mm, (prompt_custom_flow
        [.text "https://e", .text "mid", .text "K", .text "50000"]
        ⟨[("K", "x")], [], ⟨.absent, false, []⟩⟩).ctx.fs.file =
        .stored (Json.obj mm) ∧
      lookupKey mm "custom-mid" =
        some (configEntry "https://e" "mid" "K"
          (contextLengthOf "50000")) ∧
      entryCtxLen (configEntry "https://e" "mid" "K"
          (contextLengthOf "50000")) =
        some (Json.num (contextLengthOf "50000")) :=
  ⟨context_length_prompt_defaults.2.2.2.2.2.1 "7x" rfl,
   context_length_prompt_defaults.2.2.2.2.2.2
     ⟨[("K", "x")], [], ⟨.absent, false, []⟩⟩ "https://e" "mid" "K" "50000"
     [] (by decide) (by decide) (by decide) rfl rfl rfl⟩

/-- C7: every successful run has written exactly one file, whose dict
holds, under the key `custom-<model_id>`, the entry built by the flow;
the entry shape is the type tag `"custom_openai"`, `name` = model id,
`custom_endpoint` = url plus an `api_key` reference `$<env var>`,
integer `context_length`, and `supported_settings` exactly
`["temperature", "top_p"]`; the write passes `indent=4` to
`json.dump`. -/
theorem saved_entry_shape :
    (∀ (d : DisplayEvent) (inputs : List PromptResp) (c : Ctx),
      (run d inputs c).res = .ok true →
      ∃ u m n L mm,
        (run d inputs c).ctx.fs.file = .stored (Json.obj mm) ∧
        (run d inputs c).ctx.fs.writeLog =
          c.fs.writeLog ++ [(Json.obj mm, 4)] ∧
        lookupKey mm ("custom-" ++ m) = some (configEntry u m n L)) ∧
    (∀ (u m n : String) (L : Int),
      configEntry u m n L =
        Json.obj
          [ ("type", Json.str "custom_openai"),
            ("name", Json.str m),
            ("custom_endpoint", Json.obj
              [ ("url", Json.str u),
                ("api_key", Json.str ("$" ++ n)) ]),
            ("context_length", Json.num L),
            ("supported_settings", Json.arr
              [Json.str "temperature", Json.str "top_p"]) ]) := by
  constructor
  · intro d inputs c h
    obtain ⟨u, m, n, L, mm, h1, h2, h3⟩ := run_res_true d inputs c h
    refine ⟨u, m, n, L, mm, h1, h2, ?_⟩
    rw [h3]
    exact lookupKey_setKey_self _ _ _
  · intro u m n L
    rfl

/-- C7 witness: a concrete successful run writes one file with the fully
expanded entry under `custom-mid`. -/
theorem saved_entry_shape_witness :
    (∃ u m n L mm,
      (run .enter [.text "https://e", .text "mid", .text "K", .text ""]
          ⟨[("K", "x")], [], ⟨.absent, false, []⟩⟩).ctx.fs.file =
        .stored (Json.obj mm) ∧
      (run .enter [.text "https://e", .text "mid", .text "K", .text ""]
          ⟨[("K", "x")], [], ⟨.absent, false, []⟩⟩).ctx.fs.writeLog =
        FS.writeLog ⟨.absent, false, []⟩ ++ [(Json.obj mm, 4)] ∧
      lookupKey mm ("custom-" ++ m) = some (configEntry u m n L)) ∧
    configEntry "https://e" "mid" "K" 128000 =
      Json.obj
        [ ("type", Json.str "custom_openai"),
          ("name", Json.str "mid"),
          ("custom_endpoint", Json.obj
            [ ("url", Json.str "https://e"),
              ("api_key", Json.str ("$" ++ "K")) ]),
          ("context_length", Json.num 128000),
          ("supported_settings", Json.arr
            [Json.str "temperature", Json.str "top_p"]) ] :=
  ⟨saved_entry_shape.1 .enter
      [.text "https://e", .text "mid", .text "K", .text ""]
      ⟨[("K", "x")], [], ⟨.absent, false, []⟩⟩ rfl,
   saved_entry_shape.2 "https://e" "mid" "K" 128000⟩

/-- C9 (implicit): the context-length input undergoes no range
validation — every string Python's `int(...)` accepts, including zero
and negative values, becomes the saved entry's `context_length`
verbatim. -/
theorem context_length_no_range_validation (s : String) (k : Int)
    (hp : pythonInt s = some k) :
    contextLengthOf s = k ∧
    ∀ (c : Ctx) (u m n : String) (rest : List PromptResp),
      u ≠ "" → m ≠ "" → n ≠ "" → envTruthy c.env n = true →
      loadOk c.fs.file = true → c.fs.writeFails = false →
      ∃ mm, (prompt_custom_flow
          (.text u :: .text m :: .text n :: .text s :: rest) c).ctx.fs.file =
          .stored (Json.obj mm) ∧
        lookupKey mm ("custom-" ++ m) = some (configEntry u m n k) ∧
        entryCtxLen (configEntry u m n k) = some (Json.num k) := by
  have hnone : pythonInt "" = none := rfl
  have hs : s ≠ "" := by
    intro h
    rw [h, hnone] at hp
    cases hp
  have hctx : contextLengthOf s = k := by
    unfold contextLengthOf
    simp [hs, hp]
  refine ⟨hctx, ?_⟩
  intro c u m n rest hu hm hn henv hload hw
  rw [prompt_flow_truthy_eq c u m n s rest hu hm hn henv,
    do_save_ok_eq u m n (contextLengthOf s) rest c hload hw, hctx]
  exact ⟨setKey (loadedDict c.fs.file) ("custom-" ++ m)
      (configEntry u m n k),
    rfl, lookupKey_setKey_self _ _ _, rfl⟩

/-- C9 witness: `"-1"` parses to `-1` and a concrete run saves an entry
with `context_length == -1`. -/
theorem context_length_no_range_validation_witness :
    contextLengthOf "-1" = -1 ∧
    ∃ mm, (prompt_custom_flow
        [.text "https://e", .text "mid", .text "K", .text "-1"]
        ⟨[("K", "x")], [], ⟨.absent, false, []⟩⟩).ctx.fs.file =
        .stored (Json.obj mm) ∧
      lookupKey mm "custom-mid" =
        some (configEntry "https://e" "mid" "K" (-1)) ∧
      entryCtxLen (configEntry "https://e" "mid" "K" (-1)) =
        some (Json.num (-1)) :=
  ⟨(context_length_no_range_validation "-1" (-1) rfl).1,
   (context_length_no_range_validation "-1" (-1) rfl).2
     ⟨[("K", "x")], [], ⟨.absent, false, []⟩⟩ "https://e" "mid" "K" []
     (by decide) (by decide) (by decide) rfl rfl rfl⟩

/-- C10 (implicit): when the user supplies a nonempty secret at prompt 5,
the configuration store and the process environment are mutated, and if
the configuration-file write then fails the exception propagates
(`Except.error`, never `true`) while those secret side effects stay in
place — the file itself untouched. -/
theorem secret_side_effects_not_rolled_back (c : Ctx)
    (u m n s v : String) (rest : List PromptResp)
    (hu : u ≠ "") (hm : m ≠ "") (hn : n ≠ "")
    (henv : envTruthy c.env n = false) (hv : v ≠ "")
    (hload : loadOk c.fs.file = true) (hw : c.fs.writeFails = true) :
    prompt_custom_flow
        (.text u :: .text m :: .text n :: .text s :: .text v :: rest) c =
      ⟨.error (), { c with store := envSet c.store n v,
                           env := envSet c.env n v }, rest⟩ ∧
    envGet (envSet c.env n v) n = some v ∧
    envGet (envSet c.store n v) n = some v := by
  refine ⟨?_, envGet_envSet_self c.env n v, envGet_envSet_self c.store n v⟩
  rw [prompt_flow_falsy_set_eq c u m n s v rest hu hm hn henv hv]
  exact do_save_write_fail_eq u m n (contextLengthOf s) rest
    { c with store := envSet c.store n v, env := envSet c.env n v }
    hload hw

/-- C10 witness: a concrete run with a failing write keeps the secret in
the environment and the store, and raises instead of returning
`true`. -/
theorem secret_side_effects_not_rolled_back_witness :
    prompt_custom_flow
        [.text "https://e", .text "mid", .text "N", .text "",
         .text "sec"] ⟨[], [], ⟨.absent, true, []⟩⟩ =
      ⟨.error (), { Ctx.mk [] [] ⟨.absent, true, []⟩ with
                    store := envSet [] "N" "sec",
                    env := envSet [] "N" "sec" }, []⟩ ∧
    envGet (envSet [] "N" "sec") "N" = some "sec" ∧
    envGet (envSet [] "N" "sec") "N" = some "sec" :=
  secret_side_effects_not_rolled_back ⟨[], [], ⟨.absent, true, []⟩⟩
    "https://e" "mid" "N" "" "sec" [] (by decide) (by decide) (by decide)
    rfl (by decide) rfl rfl

end CodePuppy
